import Mathlib

/-!
Shallow embedding of the call-routing / availability / SMS-automation core of
the Telnyx back-office repository, together with theorems checking the
natural-language specification against it.

Embedded source files:
 * `src/services/telnyxService.js` — `isUserAvailable`, `handleIncomingCall`,
   `handleUnavailableDTMF`, `sendToVoicemail`;
 * `src/services/calendarService.js` — `isUserInMeeting`;
 * `src/services/smsAutomationService.js` — `processIncomingSms`,
   `checkTriggerConditions`, `executeAutomationActions`, `executeAction`,
   `executeSendSmsAction`, `scheduleDelayedAction`, `processTemplate`,
   `processScheduledAutomations`, `processAvailabilityChange`.

Modelling conventions:
 * JavaScript strings are Lean `String`s; all string primitives the code relies
   on (`<=`/`>=` relational comparison, `toLowerCase`, `includes`, `split`,
   `encodeURIComponent`, `String.prototype.replace` with a global regex) are
   re-implemented below over `List Char` so that they compute by `rfl`/`decide`.
   The strings the code compares are ASCII, where JavaScript's UTF-16
   code-unit order coincides with the code-point order used here.
 * "The current time" (`moment()` / `new Date()`) is passed explicitly as a
   `NowTime` value: an absolute timestamp (for `Date` comparisons against
   calendar-event bounds) plus the formatted weekday name and `HH:mm` string.
 * Telephony side effects (`telnyxClient.calls.update`) are recorded as a list
   of `TelnyxCmd` values in the order the code issues them; outbound SMS sends
   (`telnyxService.sendSMS`) are recorded as `Send` values; `setTimeout`
   deferrals are recorded as `Scheduled` values, and the body of the timer
   callback of `scheduleDelayedAction` is modelled by `runDelayedAction`,
   parameterised by the database state at the moment the timer fires.
 * Database reads (`SmsAutomation.find`, `User.findById`) take the database
   contents as an explicit argument; database writes (statistics counters)
   are not modelled, as no claim mentions them.
 * JavaScript truthiness on optional strings (`undefined`/`''` are falsy) is
   modelled by `jsTruthyStr`; optional object fields are `Option`s.
 * `String.prototype.replace(new RegExp(key, 'g'), v)` is modelled by
   `jsRegexReplace`, in which `.` in the pattern matches any single character
   other than a line terminator, exactly as in a JavaScript regex; all other
   characters of the table keys are regex-literal.  Dollar-escape sequences in
   the replacement string are not expanded (no claim exercises them).
-/

namespace Telnyx

/-! ## JavaScript string primitives -/

/-- Strict lexicographic comparison of character lists, mirroring the
JavaScript relational comparison of strings (code-unit order). -/
def charListLt : List Char → List Char → Bool
  | [], [] => false
  | [], _ :: _ => true
  | _ :: _, [] => false
  | a :: as, b :: bs => if a < b then true else if b < a then false else charListLt as bs

/-- JavaScript `a < b` on strings. -/
def jsLt (a b : String) : Bool := charListLt a.toList b.toList

/-- JavaScript `a <= b` on strings. -/
def jsLe (a b : String) : Bool := !(charListLt b.toList a.toList)

/-- JavaScript `String.prototype.toLowerCase` (ASCII range, which is all the
code compares). -/
def jsToLower (s : String) : String := String.mk (s.toList.map Char.toLower)

/-- Does `pat` occur at the head of the second list? -/
def listStarts : List Char → List Char → Bool
  | [], _ => true
  | _ :: _, [] => false
  | a :: as, b :: bs => a == b && listStarts as bs

/-- Does `pat` occur as a contiguous run of the second list? -/
def listHasSub (pat : List Char) : List Char → Bool
  | [] => pat.isEmpty
  | c :: rest => listStarts pat (c :: rest) || listHasSub pat rest

/-- JavaScript `s.includes(sub)`. -/
def jsIncludes (s sub : String) : Bool := listHasSub sub.toList s.toList

/-- JavaScript `s.split(' ')[0]`: the characters before the first space. -/
def firstWord (s : String) : String :=
  String.mk (s.toList.takeWhile (fun c => !(c == ' ')))

/-- Truthiness of an optional JavaScript string: `undefined` and `''` are
falsy. -/
def jsTruthyStr : Option String → Bool
  | none => false
  | some s => !s.isEmpty

/-- JavaScript `a || b` on optional strings: the first operand when truthy,
otherwise the second. -/
def jsOrOpt (a b : Option String) : Option String := if jsTruthyStr a then a else b

/-- JavaScript `a || d` where `d` is a (truthy) literal default. -/
def jsOrDefault (a : Option String) (d : String) : String :=
  match a with
  | some s => if s.isEmpty then d else s
  | none => d

/-- Uppercase hexadecimal digit, `n < 16`. -/
def hexUpper (n : Nat) : Char := if n < 10 then Char.ofNat (48 + n) else Char.ofNat (55 + n)

/-- UTF-8 bytes of a character (as `Nat`s). -/
def utf8Bytes (c : Char) : List Nat :=
  let n := c.toNat
  if n < 128 then [n]
  else if n < 2048 then [192 + n / 64, 128 + n % 64]
  else if n < 65536 then [224 + n / 4096, 128 + (n / 64) % 64, 128 + n % 64]
  else [240 + n / 262144, 128 + (n / 4096) % 64, 128 + (n / 64) % 64, 128 + n % 64]

/-- Characters `encodeURIComponent` leaves unescaped:
`A–Z a–z 0–9 - _ . ! ~ * ' ( )`. -/
def uriUnescaped (c : Char) : Bool :=
  let n := c.toNat
  (65 ≤ n && n ≤ 90) || (97 ≤ n && n ≤ 122) || (48 ≤ n && n ≤ 57) ||
  n == 45 || n == 95 || n == 46 || n == 33 || n == 126 || n == 42 ||
  n == 39 || n == 40 || n == 41

/-- `%HH` escape of one byte. -/
def percentByte (b : Nat) : List Char := [Char.ofNat 37, hexUpper (b / 16), hexUpper (b % 16)]

/-- JavaScript `encodeURIComponent`. -/
def encodeURIComponent (s : String) : String :=
  String.mk ((s.toList.map
    (fun c => if uriUnescaped c then [c] else ((utf8Bytes c).map percentByte).flatten)).flatten)

/-- One regex pattern character against one subject character: `.` matches
anything but a line terminator, every other character matches literally
(the table keys contain no other regex metacharacter). -/
def charMatches (p c : Char) : Bool :=
  if p == '.' then !(c == '\n' || c == '\r' || c.toNat == 8232 || c.toNat == 8233)
  else p == c

/-- Match the whole pattern at the head of the subject, returning the
remaining subject on success. -/
def matchWildcard : List Char → List Char → Option (List Char)
  | [], s => some s
  | _ :: _, [] => none
  | p :: ps, c :: cs => if charMatches p c then matchWildcard ps cs else none

/-- Global, leftmost, non-overlapping replacement, as
`s.replace(new RegExp(pat, 'g'), rep)` performs for the patterns at hand.
`fuel` is an upper bound on the number of positions examined; the callers
pass the subject length, which suffices for the non-empty patterns used. -/
def replaceGo (pat rep : List Char) : Nat → List Char → List Char
  | _, [] => []
  | 0, s => s
  | fuel + 1, c :: cs =>
    match matchWildcard pat (c :: cs) with
    | some rest => rep ++ replaceGo pat rep fuel rest
    | none => c :: replaceGo pat rep fuel cs

/-- JavaScript `s.replace(new RegExp(pat, 'g'), rep)` for the variable-table
patterns (no capture groups, `.` as the only metacharacter). -/
def jsRegexReplace (pat rep s : String) : String :=
  String.mk (replaceGo pat.toList rep.toList s.toList.length s.toList)

/-! ## Data model -/

/-- A cached calendar event (`calendarIntegration.events` entry). -/
structure CalEvent where
  status : String
  makeUnavailable : Bool
  startTime : Int
  endTime : Int
deriving DecidableEq, Repr

/-- The user's `calendarIntegration` sub-document. -/
structure CalendarIntegration where
  enabled : Bool
  makeUnavailableDuringEvents : Bool
  events : List CalEvent
deriving DecidableEq, Repr

/-- One weekly-availability day record. -/
structure DayAvailability where
  day : String
  isAvailable : Bool
  startTime : String
  endTime : String
deriving DecidableEq, Repr

/-- The fields of the `User` document the embedded functions read. -/
structure User where
  name : String := ""
  email : String := ""
  phoneNumber : String := ""
  telnyxPhoneNumber : Option String := none
  voicemailGreetingUrl : Option String := none
  voicemailGreeting : String := ""
  routeToLiveAgent : Bool := false
  liveAgentNumber : Option String := none
  availability : List DayAvailability := []
  calendarIntegration : Option CalendarIntegration := none
deriving DecidableEq, Repr

/-- The current instant, as the code observes it: an absolute timestamp for
`Date` comparisons plus `moment()`'s formatted weekday name (`dddd`,
lower-cased) and time of day (`HH:mm`). -/
structure NowTime where
  t : Int
  dayOfWeek : String
  hhmm : String
deriving DecidableEq, Repr

/-! ## calendarService.isUserInMeeting -/

/-- The predicate `calendarService.isUserInMeeting` applies to each cached
event: skip cancelled events and events the user excluded; otherwise test
`now >= startTime && now <= endTime`. -/
def eventActive (now : Int) (e : CalEvent) : Bool :=
  if e.status == "cancelled" then false
  else if !e.makeUnavailable then false
  else decide (e.startTime ≤ now) && decide (now ≤ e.endTime)

/-- `calendarService.isUserInMeeting(user)`. -/
def isUserInMeeting (user : User) (now : Int) : Bool :=
  match user.calendarIntegration with
  | none => false
  | some ci =>
    if !ci.enabled || !ci.makeUnavailableDuringEvents then false
    else (ci.events.find? (eventActive now)).isSome

/-! ## telnyxService availability and call routing -/

/-- `telnyxService.isUserAvailable(user)`. -/
def isUserAvailable (user : User) (now : NowTime) : Bool :=
  if isUserInMeeting user now.t then false
  else
    match user.availability.find? (fun a => a.day == now.dayOfWeek) with
    | none => false
    | some dayAvailability =>
      if !dayAvailability.isAvailable then false
      else jsLe dayAvailability.startTime now.hhmm && jsLe now.hhmm dayAvailability.endTime

/-- Ring timeout in seconds before going to voicemail (`RING_TIMEOUT_SECONDS`). -/
def RING_TIMEOUT_SECONDS : Nat := 15

/-- Central forwarding number for option 2 (`CENTRAL_FORWARDING_NUMBER`). -/
def CENTRAL_FORWARDING_NUMBER : String := "+18446942885"

/-- Unavailable prompt URL (`UNAVAILABLE_PROMPT_URL`). -/
def UNAVAILABLE_PROMPT_URL : String :=
  "https://raw.githubusercontent.com/GavvlLaw/voicemail-greetings/main/Unavailable"

/-- Base path of the greeting-asset repository used by `sendToVoicemail` and
`generateGitHubVoicemailUrl`. -/
def VOICEMAIL_BASE_URL : String :=
  "https://raw.githubusercontent.com/GavvlLaw/voicemail-greetings/main/"

/-- A `telnyxClient.calls.update` command, in the order issued. -/
inductive TelnyxCmd where
  | answer (clientState : Option String)
  | transfer (dest : String) (timeoutSecs : Option Nat)
  | playAudio (audioUrl : String) (clientState : Option String)
  | gather (maxDigits : Nat) (timeoutSecs : Nat) (clientState : Option String)
  | speak (payload : String) (voice : String) (language : String)
  | recordStart (format : String) (channels : String) (playBeep : Bool)
deriving DecidableEq, Repr

/-- Result of a call-handling entry point: the `action` field of the returned
object, plus the telephony commands issued along the way. -/
structure CallResult where
  action : String
  cmds : List TelnyxCmd
  message : Option String := none
deriving DecidableEq, Repr

/-- Greeting audio URL selection at the top of `sendToVoicemail`: the user's
custom `voicemailGreetingUrl` when truthy, else the GitHub-repository URL
derived from the user's first name. -/
def greetingAudioUrl (user : User) : String :=
  if jsTruthyStr user.voicemailGreetingUrl then user.voicemailGreetingUrl.getD ""
  else VOICEMAIL_BASE_URL ++ encodeURIComponent (firstWord user.name ++ " Voicemail.mp3")

/-- `telnyxService.sendToVoicemail(callControlId, user)`.  `audioFails`
models whether the `play_audio` command throws (asset missing, network
error), which the code catches to fall back to text-to-speech. -/
def sendToVoicemail (_callControlId : String) (user : User) (audioFails : Bool) : CallResult :=
  let audioUrl := greetingAudioUrl user
  if audioFails then
    { action := "voicemail",
      cmds := [TelnyxCmd.playAudio audioUrl none,
               TelnyxCmd.speak user.voicemailGreeting "female" "en-US",
               TelnyxCmd.recordStart "mp3" "single" true] }
  else
    { action := "voicemail",
      cmds := [TelnyxCmd.playAudio audioUrl none,
               TelnyxCmd.recordStart "mp3" "single" true] }

/-- The DTMF webhook event consumed by `handleUnavailableDTMF`; `digit` is
absent when the gather timed out with no key pressed. -/
structure DtmfEvent where
  call_control_id : String
  digit : Option String
deriving DecidableEq, Repr

/-- `telnyxService.handleUnavailableDTMF(event, user)`. -/
def handleUnavailableDTMF (event : DtmfEvent) (user : User) (audioFails : Bool) : CallResult :=
  match event.digit with
  | some d =>
    if d == "1" then sendToVoicemail event.call_control_id user audioFails
    else if d == "2" then
      { action := "forwarded_to_central",
        cmds := [TelnyxCmd.transfer CENTRAL_FORWARDING_NUMBER none] }
    else sendToVoicemail event.call_control_id user audioFails
  | none => sendToVoicemail event.call_control_id user audioFails

/-- `telnyxService.handleIncomingCall(user, callControlId)`. -/
def handleIncomingCall (user : User) (now : NowTime) (_callControlId : String) : CallResult :=
  if isUserAvailable user now then
    { action := "forwarded",
      cmds := [TelnyxCmd.answer (some "awaiting-transfer"),
               TelnyxCmd.transfer user.phoneNumber (some RING_TIMEOUT_SECONDS)] }
  else if user.routeToLiveAgent && jsTruthyStr user.liveAgentNumber then
    { action := "routed_to_agent",
      cmds := [TelnyxCmd.answer (some "awaiting-transfer"),
               TelnyxCmd.transfer (user.liveAgentNumber.getD "") (some RING_TIMEOUT_SECONDS)] }
  else
    { action := "unavailable_prompt",
      cmds := [TelnyxCmd.answer none,
               TelnyxCmd.playAudio UNAVAILABLE_PROMPT_URL (some "gathering-input"),
               TelnyxCmd.gather 1 5 (some "unavailable-flow")],
      message := some "Playing unavailable prompt with options: 1 for voicemail, 2 for central number" }

/-! ## smsAutomationService data model -/

/-- An SMS template document (`template.content` is all the engine reads). -/
structure Template where
  content : String
deriving DecidableEq, Repr

/-- The execution context object the entry points build and pass through
`checkTriggerConditions` / `executeAutomationActions`; absent fields are
`none`.  The JavaScript `from` field is spelled `from_`. -/
structure Context where
  messageText : Option String := none
  from_ : Option String := none
  to_ : Option String := none
  user : Option User := none
  userId : Option String := none
  availabilityStatus : Option String := none
  scheduledTime : Option String := none
  dayOfWeek : Option String := none
  callEventType : Option String := none
  callDuration : Option String := none
  automationId : Option String := none
deriving DecidableEq, Repr

/-- Ambient inputs of template rendering that come from the clock and the
database rather than the context: the locale-formatted date/time/weekday
strings (`new Date().toLocaleDateString()` etc.) and the result of the
`User.findById(context.userId)` lookup. -/
structure RenderEnv where
  dateStr : String := ""
  timeStr : String := ""
  dayStr : String := ""
  fetchedUser : Option User := none
deriving DecidableEq, Repr

/-- Condition `parameters` sub-document (fields used by the embedded code). -/
structure CondParams where
  keywords : Option (List String) := none
  time : Option String := none
  daysOfWeek : Option (List String) := none
  availabilityStatus : Option String := none
deriving DecidableEq, Repr

/-- One automation trigger condition. -/
structure SmsCondition where
  type : String
  parameters : Option CondParams := none
deriving DecidableEq, Repr

/-- An action's `delay` sub-document. -/
structure DelaySpec where
  value : Int
  unit : String := "minutes"
deriving DecidableEq, Repr

/-- Action `parameters` sub-document. -/
structure ActionParams where
  template : Option Template := none
  message : Option String := none
  delay : Option DelaySpec := none
deriving DecidableEq, Repr

/-- One automation action. -/
structure SmsAction where
  type : String
  parameters : Option ActionParams := none
deriving DecidableEq, Repr

/-- An `SmsAutomation` document (fields the embedded code reads; `id`
models `_id`). -/
structure SmsAutomation where
  name : String := ""
  isActive : Bool := true
  phoneNumber : String := ""
  conditions : List SmsCondition := []
  actions : List SmsAction := []
  user : Option User := none
  id : String := ""
deriving DecidableEq, Repr

/-- One outbound SMS issued through `telnyxService.sendSMS(from, to, text)`. -/
structure Send where
  from_ : String
  to_ : String
  text : String
deriving DecidableEq, Repr

/-- The per-action result object pushed into `results`. -/
structure ActionResult where
  type : String
  status : String
  error : Option String := none
  delay : Option String := none
deriving DecidableEq, Repr

/-- A deferred execution registered by `scheduleDelayedAction`: the timer
payload (automation id, delay in milliseconds, and the captured action and
context). -/
structure Scheduled where
  automationId : String
  delayMs : Int
  action : SmsAction
  ctx : Context
deriving DecidableEq, Repr

/-- The object returned by the `process*` entry points. -/
structure ProcessResult where
  processed : Bool
  triggeredAutomations : List String := []
  total : Nat := 0
  reason : Option String := none
deriving DecidableEq, Repr

/-- The inbound-SMS webhook payload fields `processIncomingSms` reads. -/
structure SmsData where
  to_ : String
  from_ : String
  text : String
deriving DecidableEq, Repr

/-! ## smsAutomationService.checkTriggerConditions -/

/-- The keyword list of a condition, empty when `parameters` or
`parameters.keywords` is absent. -/
def condKeywords (c : SmsCondition) : List String :=
  match c.parameters with
  | none => []
  | some p => p.keywords.getD []

/-- Specification-side matching predicate for one condition of
`processIncomingSms`: `incomingSms` always matches; `keywordSms` matches when
some configured keyword is, case-insensitively, a substring of the message
text. -/
def condMatches (msg : String) (c : SmsCondition) : Bool :=
  c.type == "incomingSms" ||
  (c.type == "keywordSms" &&
    (condKeywords c).any (fun k => jsIncludes (jsToLower msg) (jsToLower k)))

/-- The `for (const condition of automation.conditions)` loop of
`checkTriggerConditions`.  When a `keywordSms` condition with a non-empty
keyword list is reached and `context.messageText` is absent, the JavaScript
`context.messageText.toLowerCase()` throws; the surrounding `catch` then makes
the whole function return `false`. -/
def checkConditionsGo (ctx : Context) : List SmsCondition → Bool
  | [] => false
  | c :: rest =>
    if c.type == "incomingSms" then true
    else if c.type == "keywordSms" then
      match c.parameters with
      | none => checkConditionsGo ctx rest
      | some ps =>
        match ps.keywords with
        | none => checkConditionsGo ctx rest
        | some ks =>
          if ks.isEmpty then checkConditionsGo ctx rest
          else
            match ctx.messageText with
            | none => false
            | some mt =>
              if ks.any (fun k => jsIncludes (jsToLower mt) (jsToLower k)) then true
              else checkConditionsGo ctx rest
    else checkConditionsGo ctx rest

/-- `smsAutomationService.checkTriggerConditions(automation, context)`. -/
def checkTriggerConditions (automation : SmsAutomation) (ctx : Context) : Bool :=
  if automation.conditions.isEmpty then false
  else checkConditionsGo ctx automation.conditions

/-! ## smsAutomationService.processTemplate -/

/-- The fixed variable table of `processTemplate`, in insertion order
(`Object.keys` iterates string keys in insertion order). -/
def templateVariables (user : Option User) (ctx : Context) (env : RenderEnv) :
    List (String × String) :=
  [ ("\x7b\x7buser.name\x7d\x7d", jsOrDefault (user.map (fun u => u.name)) "User"),
    ("\x7b\x7buser.firstName\x7d\x7d", jsOrDefault (user.map (fun u => firstWord u.name)) "User"),
    ("\x7b\x7buser.email\x7d\x7d", jsOrDefault (user.map (fun u => u.email)) ""),
    ("\x7b\x7buser.phone\x7d\x7d", jsOrDefault (user.map (fun u => u.phoneNumber)) ""),
    ("\x7b\x7bdate\x7d\x7d", env.dateStr),
    ("\x7b\x7btime\x7d\x7d", env.timeStr),
    ("\x7b\x7bday\x7d\x7d", env.dayStr),
    ("\x7b\x7bsender\x7d\x7d", jsOrDefault ctx.from_ ""),
    ("\x7b\x7bmessage\x7d\x7d", jsOrDefault ctx.messageText ""),
    ("\x7b\x7bcallType\x7d\x7d", jsOrDefault ctx.callEventType ""),
    ("\x7b\x7bcallDuration\x7d\x7d", jsOrDefault ctx.callDuration "0"),
    ("\x7b\x7bavailability\x7d\x7d", jsOrDefault ctx.availabilityStatus "") ]

/-- `smsAutomationService.processTemplate(template, context)`: resolve the
user (context user, else the `User.findById(context.userId)` lookup), then
fold the variable table through global regex replacement.  The function is
total: the JavaScript `catch` that returns the unrendered content has no
reachable trigger in this model. -/
def processTemplate (template : Template) (ctx : Context) (env : RenderEnv) : String :=
  let user : Option User :=
    match ctx.user with
    | some u => some u
    | none => if ctx.userId.isSome then env.fetchedUser else none
  (templateVariables user ctx env).foldl
    (fun content kv => jsRegexReplace kv.1 kv.2 content) template.content

/-! ## smsAutomationService action execution -/

/-- `smsAutomationService.executeSendSmsAction(action, context)`:
`Except.error` models a thrown `Error`, `Except.ok` the successful
`telnyxService.sendSMS(from, to, messageText)` call. -/
def executeSendSmsAction (action : SmsAction) (ctx : Context) (env : RenderEnv) :
    Except String Send :=
  match action.parameters with
  | none => Except.error "Missing action parameters"
  | some ps =>
    let messageText : Except String String :=
      match ps.template with
      | some tmpl => Except.ok (processTemplate tmpl ctx env)
      | none =>
        if jsTruthyStr ps.message then Except.ok (ps.message.getD "")
        else Except.error "No template or message provided for SMS action"
    match messageText with
    | Except.error e => Except.error e
    | Except.ok text =>
      let fromNumber := jsOrOpt ctx.to_ (ctx.user.bind (fun u => u.telnyxPhoneNumber))
      let toNumber := ctx.from_
      if !(jsTruthyStr fromNumber) || !(jsTruthyStr toNumber) then
        Except.error "Missing required to/from phone numbers"
      else
        Except.ok { from_ := fromNumber.getD "", to_ := toNumber.getD "", text := text }

/-- `smsAutomationService.executeAction(action, context)`: dispatch on the
action type; a thrown error is caught and turned into a `status: 'error'`
result.  Returns the result object and the sends issued. -/
def executeAction (action : SmsAction) (ctx : Context) (env : RenderEnv) :
    ActionResult × List Send :=
  if action.type == "sendSms" then
    match executeSendSmsAction action ctx env with
    | Except.ok send => ({ type := "sendSms", status := "success" }, [send])
    | Except.error e => ({ type := "sendSms", status := "error", error := some e }, [])
  else if action.type == "notify" then
    ({ type := "notify", status := "success" }, [])
  else
    ({ type := action.type, status := "skipped" }, [])

/-- The milliseconds computation of `scheduleDelayedAction`: minutes by
default, overridden for `hours` and `days`. -/
def delayMsOf (d : DelaySpec) : Int :=
  if d.unit == "hours" then d.value * 60 * 60 * 1000
  else if d.unit == "days" then d.value * 24 * 60 * 60 * 1000
  else d.value * 60 * 1000

/-- The `for (const action of automation.actions)` loop of
`executeAutomationActions`: an action whose `parameters.delay.value > 0` is
handed to `scheduleDelayedAction` (recorded as a `Scheduled`) with a
`status: 'scheduled'` result; every other action runs immediately. -/
def executeActionsGo (env : RenderEnv) (ctx : Context) (autoId : String) :
    List SmsAction → List ActionResult × List Send × List Scheduled
  | [] => ([], [], [])
  | action :: rest =>
    let tail := executeActionsGo env ctx autoId rest
    match action.parameters.bind (fun ps => ps.delay) with
    | some d =>
      if 0 < d.value then
        ({ type := action.type, status := "scheduled",
           delay := some (toString d.value ++ " " ++ d.unit) } :: tail.1,
         tail.2.1,
         { automationId := autoId, delayMs := delayMsOf d,
           action := action, ctx := ctx } :: tail.2.2)
      else
        let es := executeAction action ctx env
        (es.1 :: tail.1, es.2 ++ tail.2.1, tail.2.2)
    | none =>
      let es := executeAction action ctx env
      (es.1 :: tail.1, es.2 ++ tail.2.1, tail.2.2)

/-- `smsAutomationService.executeAutomationActions(automation, context)`. -/
def executeAutomationActions (automation : SmsAutomation) (ctx : Context) (env : RenderEnv) :
    List ActionResult × List Send × List Scheduled :=
  executeActionsGo env ctx automation.id automation.actions

/-- The `setTimeout` callback body of `scheduleDelayedAction`, run when the
timer fires: re-fetch the automation from the database as it stands at that
moment; if it no longer exists or is no longer active, skip the deferred
action; otherwise execute the captured action with the captured context.
Returns the sends issued. -/
def runDelayedAction (db : List SmsAutomation) (sched : Scheduled) (env : RenderEnv) :
    List Send :=
  match db.find? (fun a => a.id == sched.automationId) with
  | none => []
  | some automation =>
    if !automation.isActive then []
    else (executeAction sched.action sched.ctx env).2

/-! ## smsAutomationService entry points -/

/-- The per-automation loop of `processIncomingSms`: evaluate the trigger
conditions with a `{messageText, from, to}` context and, on a match, execute
the actions with the same data plus the automation id, collecting the
automation name. -/
def processIncomingSmsGo (env : RenderEnv) (smsData : SmsData) :
    List SmsAutomation → List String × List Send × List Scheduled
  | [] => ([], [], [])
  | a :: rest =>
    let ctxCheck : Context :=
      { messageText := some smsData.text, from_ := some smsData.from_, to_ := some smsData.to_ }
    let tail := processIncomingSmsGo env smsData rest
    if checkTriggerConditions a ctxCheck then
      let ctxExec : Context :=
        { messageText := some smsData.text, from_ := some smsData.from_,
          to_ := some smsData.to_, automationId := some a.id }
      let out := executeAutomationActions a ctxExec env
      (a.name :: tail.1, out.2.1 ++ tail.2.1, out.2.2 ++ tail.2.2)
    else tail

/-- `smsAutomationService.processIncomingSms(smsData)` against database
contents `db`: the Mongo query keeps active automations on the destination
number having at least one condition of type `incomingSms` or `keywordSms`. -/
def processIncomingSms (db : List SmsAutomation) (smsData : SmsData) (env : RenderEnv) :
    ProcessResult × List Send × List Scheduled :=
  let automations := db.filter (fun a =>
    a.isActive && a.phoneNumber == smsData.to_ &&
    a.conditions.any (fun c => c.type == "incomingSms" || c.type == "keywordSms"))
  if automations.isEmpty then
    ({ processed := false, reason := some "No automations configured for this number" }, [], [])
  else
    let out := processIncomingSmsGo env smsData automations
    ({ processed := !out.1.isEmpty, triggeredAutomations := out.1, total := out.1.length },
     out.2.1, out.2.2)

/-- Shared execution loop of `processScheduledAutomations` and
`processAvailabilityChange`: every automation the query returned is executed
(no further trigger check), with an entry-point-specific context. -/
def runAutomations (env : RenderEnv) (ctxOf : SmsAutomation → Context) :
    List SmsAutomation → List String × List Send × List Scheduled
  | [] => ([], [], [])
  | a :: rest =>
    let out := executeAutomationActions a (ctxOf a) env
    let tail := runAutomations env ctxOf rest
    (a.name :: tail.1, out.2.1 ++ tail.2.1, out.2.2 ++ tail.2.2)

/-- The context `processScheduledAutomations` builds for each automation:
`{scheduledTime, dayOfWeek, automationId, user}` — in particular no `from`
and no `to`. -/
def scheduledContext (timeNow dayOfWeek : String) (a : SmsAutomation) : Context :=
  { scheduledTime := some timeNow, dayOfWeek := some dayOfWeek,
    automationId := some a.id, user := a.user }

/-- `smsAutomationService.processScheduledAutomations()` against database
contents `db`, at the instant formatted as `timeNow` (`HH:mm`) on weekday
`dayOfWeek`.  The Mongo query keeps active automations having some condition
of type `scheduledTime`, some condition with `parameters.time == timeNow`,
and some condition whose `parameters.daysOfWeek` contains `dayOfWeek`. -/
def processScheduledAutomations (db : List SmsAutomation) (timeNow dayOfWeek : String)
    (env : RenderEnv) : ProcessResult × List Send × List Scheduled :=
  let automations := db.filter (fun a =>
    a.isActive &&
    a.conditions.any (fun c => c.type == "scheduledTime") &&
    a.conditions.any (fun c =>
      match c.parameters with
      | some p => p.time == some timeNow
      | none => false) &&
    a.conditions.any (fun c =>
      match c.parameters.bind (fun p => p.daysOfWeek) with
      | some ds => ds.contains dayOfWeek
      | none => false))
  if automations.isEmpty then
    ({ processed := false, reason := some "No scheduled automations for this time" }, [], [])
  else
    let out := runAutomations env (scheduledContext timeNow dayOfWeek) automations
    ({ processed := !out.1.isEmpty, triggeredAutomations := out.1, total := out.1.length },
     out.2.1, out.2.2)

/-- The context `processAvailabilityChange` builds for each automation:
`{availabilityStatus, userId, user, automationId}` — again no `from` and no
`to`. -/
def availabilityContext (availabilityStatus userId : String) (user : User)
    (a : SmsAutomation) : Context :=
  { availabilityStatus := some availabilityStatus, userId := some userId,
    user := some user, automationId := some a.id }

/-- `smsAutomationService.processAvailabilityChange(userId, isAvailable)`
against database contents `db`; `userLookup` is the result of
`User.findById(userId)`. -/
def processAvailabilityChange (db : List SmsAutomation) (userId : String)
    (userLookup : Option User) (isAvailable : Bool) (env : RenderEnv) :
    ProcessResult × List Send × List Scheduled :=
  match userLookup with
  | none =>
    ({ processed := false, reason := some "User not found or has no phone number" }, [], [])
  | some user =>
    if !(jsTruthyStr user.telnyxPhoneNumber) then
      ({ processed := false, reason := some "User not found or has no phone number" }, [], [])
    else
      let availabilityStatus := if isAvailable then "available" else "unavailable"
      let automations := db.filter (fun a =>
        a.isActive && a.phoneNumber == user.telnyxPhoneNumber.getD "" &&
        a.conditions.any (fun c => c.type == "availability") &&
        (a.conditions.any (fun c =>
            match c.parameters with
            | some p => p.availabilityStatus == some availabilityStatus
            | none => false) ||
         a.conditions.any (fun c =>
            match c.parameters with
            | some p => p.availabilityStatus == some "any"
            | none => false)))
      if automations.isEmpty then
        ({ processed := false,
           reason := some ("No automations configured for " ++ availabilityStatus ++ " status") },
         [], [])
      else
        let out := runAutomations env (availabilityContext availabilityStatus userId user)
          automations
        ({ processed := !out.1.isEmpty, triggeredAutomations := out.1, total := out.1.length },
         out.2.1, out.2.2)

/-- Does the action carry a positive delay (`action.parameters &&
action.parameters.delay && action.parameters.delay.value > 0`)? -/
def hasPosDelay (a : SmsAction) : Bool :=
  match a.parameters.bind (fun ps => ps.delay) with
  | some d => decide (0 < d.value)
  | none => false

/-- Specification-side restatement of the delay-to-milliseconds conversion:
`value` minutes by default, or hours/days per the unit. -/
def delayMsSpec (a : SmsAction) : Int :=
  match a.parameters.bind (fun ps => ps.delay) with
  | some d =>
    if d.unit == "hours" then d.value * 3600000
    else if d.unit == "days" then d.value * 86400000
    else d.value * 60000
  | none => 0

/-- The human-readable delay recorded in a `scheduled` result
(`` `${value} ${unit}` ``). -/
def delayLabel (a : SmsAction) : Option String :=
  (a.parameters.bind (fun ps => ps.delay)).map (fun d => toString d.value ++ " " ++ d.unit)

/-! ## Concrete example data (used by the witness theorems) -/

/-- A user available Monday 09:00–17:00, no calendar integration. -/
def mondayUser : User :=
  { name := "Bob Jones", phoneNumber := "+15550001111",
    availability := [{ day := "monday", isAvailable := true,
                       startTime := "09:00", endTime := "17:00" }] }

/-- A user with no availability but live-agent routing configured. -/
def agentUser : User :=
  { name := "Dana", phoneNumber := "+15550002222",
    routeToLiveAgent := true, liveAgentNumber := some "+15550009999" }

/-- A user with no availability and no live-agent routing. -/
def plainUser : User := { name := "Eve", phoneNumber := "+15550003333" }

/-- A user whose Monday window crosses midnight (22:00–02:00). -/
def nightUser : User :=
  { name := "Nik", phoneNumber := "+15550004444",
    availability := [{ day := "monday", isAvailable := true,
                       startTime := "22:00", endTime := "02:00" }] }

/-- A calendar event running from timestamp 0 to 100, confirmed and marked
`makeUnavailable`. -/
def busyEvent : CalEvent :=
  { status := "confirmed", makeUnavailable := true, startTime := 0, endTime := 100 }

/-- A user who is available all Monday by schedule but has an active
calendar event. -/
def meetingUser : User :=
  { name := "Carol", phoneNumber := "+15550005555",
    availability := [{ day := "monday", isAvailable := true,
                       startTime := "00:00", endTime := "23:59" }],
    calendarIntegration := some { enabled := true, makeUnavailableDuringEvents := true,
                                  events := [busyEvent] } }

/-- Same user with the make-unavailable-during-events flag cleared. -/
def meetingUserFlagOff : User :=
  { meetingUser with
    calendarIntegration := some { enabled := true, makeUnavailableDuringEvents := false,
                                  events := [busyEvent] } }

/-- A user with a custom voicemail greeting URL. -/
def customGreetingUser : User :=
  { name := "Frank", phoneNumber := "+15550006666",
    voicemailGreetingUrl := some "https://example.com/custom-greeting.mp3" }

/-- The user of the template-rendering examples. -/
def aliceUser : User := { name := "Alice Smith", email := "alice@example.com" }

/-- The unsubscribe automation of the round-trip scenario. -/
def stopAuto : SmsAutomation :=
  { name := "Unsub", isActive := true, phoneNumber := "+15551234567",
    conditions := [{ type := "keywordSms", parameters := some { keywords := some ["stop"] } }],
    actions := [{ type := "sendSms",
                  parameters := some { message := some "You have been unsubscribed." } }],
    id := "a1" }

/-- An automation whose single action carries a five-minute delay. -/
def delayedAuto : SmsAutomation :=
  { name := "Delayed", isActive := true, phoneNumber := "+15551234567",
    actions := [{ type := "sendSms",
                  parameters := some { message := some "hi",
                                       delay := some { value := 5, unit := "minutes" } } }],
    id := "d1" }

/-- An automation mixing one delayed and one immediate `sendSms` action. -/
def mixedAuto : SmsAutomation :=
  { name := "Mixed", isActive := true, phoneNumber := "+15551234567",
    actions := [{ type := "sendSms",
                  parameters := some { message := some "hi",
                                       delay := some { value := 5, unit := "minutes" } } },
                { type := "sendSms", parameters := some { message := some "now" } }],
    id := "m1" }

/-- A scheduled automation with an immediate `sendSms` action. -/
def schedAuto : SmsAutomation :=
  { name := "MorningSms", isActive := true, phoneNumber := "+15551234567",
    conditions := [{ type := "scheduledTime",
                     parameters := some { time := some "09:00", daysOfWeek := some ["monday"] } }],
    actions := [{ type := "sendSms", parameters := some { message := some "We are open." } }],
    id := "s1" }

/-! ## Helper lemmas -/

/-- Transitivity of the non-strict (negated-`<`) comparison underlying
JavaScript string `<=`. -/
theorem charListLt_false_trans :
    ∀ a b c : List Char, charListLt b a = false → charListLt c b = false →
      charListLt c a = false := by
  intro a
  induction a with
  | nil =>
    intro b c _ _
    cases c <;> rfl
  | cons x as ih =>
    intro b c h1 h2
    cases b with
    | nil => simp [charListLt] at h1
    | cons y bs =>
      cases c with
      | nil => simp [charListLt] at h2
      | cons z cs =>
        simp only [charListLt] at h1 h2 ⊢
        by_cases hyx : y < x
        · simp [hyx] at h1
        · by_cases hzy : z < y
          · simp [hzy] at h2
          · have hxy : x ≤ y := le_of_not_lt hyx
            have hyz : y ≤ z := le_of_not_lt hzy
            have hzx : ¬ z < x := not_lt.mpr (le_trans hxy hyz)
            rw [if_neg hyx] at h1
            rw [if_neg hzy] at h2
            rw [if_neg hzx]
            by_cases hxz : x < z
            · rw [if_pos hxz]
            · rw [if_neg hxz]
              have hxz' : x = z := le_antisymm (le_trans hxy hyz) (le_of_not_lt hxz)
              have hyx' : y = x := le_antisymm (by rw [hxz']; exact hyz) hxy
              rw [if_neg (by rw [hyx']; exact lt_irrefl x)] at h1
              rw [if_neg (by rw [hyx', hxz']; exact lt_irrefl z)] at h2
              exact ih bs cs h1 h2

/-- The `action` of `sendToVoicemail` is `voicemail` on both the audio path
and the speech fallback path. -/
theorem sendToVoicemail_action (cc : String) (user : User) (fail : Bool) :
    (sendToVoicemail cc user fail).action = "voicemail" := by
  cases fail <;> rfl

/-! ## Claim theorems -/

/-- C1: `handleIncomingCall` returns exactly one of the actions `forwarded`,
`routed_to_agent`, `unavailable_prompt`, chosen by priority: an available
user gets `forwarded` (answer, then transfer to `user.phoneNumber` with the
15-second ring timeout); otherwise live-agent routing (flag set and number
truthy) gets `routed_to_agent` with the same timeout; otherwise the
unavailable prompt flow runs. -/
theorem handleIncomingCall_priority (user : User) (now : NowTime) (cc : String) :
    ((handleIncomingCall user now cc).action = "forwarded" ∨
     (handleIncomingCall user now cc).action = "routed_to_agent" ∨
     (handleIncomingCall user now cc).action = "unavailable_prompt") ∧
    (isUserAvailable user now = true →
      handleIncomingCall user now cc =
        { action := "forwarded",
          cmds := [TelnyxCmd.answer (some "awaiting-transfer"),
                   TelnyxCmd.transfer user.phoneNumber (some 15)] }) ∧
    (isUserAvailable user now = false →
      (user.routeToLiveAgent && jsTruthyStr user.liveAgentNumber) = true →
      handleIncomingCall user now cc =
        { action := "routed_to_agent",
          cmds := [TelnyxCmd.answer (some "awaiting-transfer"),
                   TelnyxCmd.transfer (user.liveAgentNumber.getD "") (some 15)] }) ∧
    (isUserAvailable user now = false →
      (user.routeToLiveAgent && jsTruthyStr user.liveAgentNumber) = false →
      (handleIncomingCall user now cc).action = "unavailable_prompt") ∧
    RING_TIMEOUT_SECONDS = 15 := by
  cases h : isUserAvailable user now <;>
    cases h2 : user.routeToLiveAgent && jsTruthyStr user.liveAgentNumber <;>
      simp [handleIncomingCall, h, h2, RING_TIMEOUT_SECONDS]

/-- C1 witness: the three branches at concrete users. -/
theorem handleIncomingCall_priority_witness :
    (handleIncomingCall mondayUser ⟨0, "monday", "10:00"⟩ "cc").action = "forwarded" ∧
    (handleIncomingCall agentUser ⟨0, "monday", "10:00"⟩ "cc").action = "routed_to_agent" ∧
    (handleIncomingCall plainUser ⟨0, "monday", "10:00"⟩ "cc").action = "unavailable_prompt" := by
  refine ⟨?_, ?_, ?_⟩
  · rw [(handleIncomingCall_priority mondayUser ⟨0, "monday", "10:00"⟩ "cc").2.1 (by decide)]
  · rw [(handleIncomingCall_priority agentUser ⟨0, "monday", "10:00"⟩ "cc").2.2.1
      (by decide) (by decide)]
  · exact (handleIncomingCall_priority plainUser ⟨0, "monday", "10:00"⟩ "cc").2.2.2.1
      (by decide) (by decide)

/-- C2: with calendar integration enabled and the make-unavailable flag set,
any non-cancelled, `makeUnavailable` event covering the current instant
forces `isUserAvailable` to `false`, regardless of the weekly schedule; and
with the integration absent, disabled, or the flag unset, the meeting check
(`isUserInMeeting`) never fires. -/
theorem isUserAvailable_meeting_precedence (user : User) (now : NowTime) :
    (∀ ci, user.calendarIntegration = some ci → ci.enabled = true →
      ci.makeUnavailableDuringEvents = true →
      ∀ e ∈ ci.events, e.status ≠ "cancelled" → e.makeUnavailable = true →
        e.startTime ≤ now.t → now.t ≤ e.endTime →
        isUserAvailable user now = false) ∧
    (user.calendarIntegration = none → ∀ t : Int, isUserInMeeting user t = false) ∧
    (∀ ci, user.calendarIntegration = some ci →
      (ci.enabled = false ∨ ci.makeUnavailableDuringEvents = false) →
      ∀ t : Int, isUserInMeeting user t = false) := by
  refine ⟨?_, ?_, ?_⟩
  · intro ci hci hen hflag e he hstat hmk h1 h2
    have hact : eventActive now.t e = true := by
      simp [eventActive, hmk, h1, h2, beq_eq_false_iff_ne.mpr hstat]
    have hmeet : isUserInMeeting user now.t = true := by
      simp only [isUserInMeeting, hci, hen, hflag]
      simp [List.find?_isSome]
      exact ⟨e, he, hact⟩
    simp [isUserAvailable, hmeet]
  · intro h t
    simp [isUserInMeeting, h]
  · intro ci hci hdis t
    cases hdis with
    | inl h => simp [isUserInMeeting, hci, h]
    | inr h => simp [isUserInMeeting, hci, h]

/-- C2 witness: the meeting makes a schedule-available user unavailable, and
clearing the flag disarms the meeting check. -/
theorem isUserAvailable_meeting_precedence_witness :
    isUserAvailable meetingUser ⟨50, "monday", "10:00"⟩ = false ∧
    isUserInMeeting meetingUserFlagOff 50 = false := by
  constructor
  · exact (isUserAvailable_meeting_precedence meetingUser ⟨50, "monday", "10:00"⟩).1
      { enabled := true, makeUnavailableDuringEvents := true, events := [busyEvent] }
      rfl rfl rfl busyEvent (by decide) (by decide) (by decide) (by decide) (by decide)
  · exact (isUserAvailable_meeting_precedence meetingUserFlagOff ⟨50, "monday", "10:00"⟩).2.2
      { enabled := true, makeUnavailableDuringEvents := false, events := [busyEvent] }
      rfl (Or.inr rfl) 50

/-- C3: when the meeting check does not fire, `isUserAvailable` is `false`
when the current weekday has no record or an unavailable record, and
otherwise equals the lexicographic test
`startTime <= timeOfDay && timeOfDay <= endTime`; in particular a
midnight-crossing window (`endTime` lexicographically below `startTime`) is
never satisfied. -/
theorem isUserAvailable_schedule (user : User) (now : NowTime)
    (hm : isUserInMeeting user now.t = false) :
    (user.availability.find? (fun a => a.day == now.dayOfWeek) = none →
      isUserAvailable user now = false) ∧
    (∀ d, user.availability.find? (fun a => a.day == now.dayOfWeek) = some d →
      (d.isAvailable = false → isUserAvailable user now = false) ∧
      (d.isAvailable = true →
        isUserAvailable user now =
          (jsLe d.startTime now.hhmm && jsLe now.hhmm d.endTime)) ∧
      (jsLt d.endTime d.startTime = true → isUserAvailable user now = false)) := by
  constructor
  · intro hfind
    simp [isUserAvailable, hm, hfind]
  · intro d hfind
    refine ⟨?_, ?_, ?_⟩
    · intro hav
      simp [isUserAvailable, hm, hfind, hav]
    · intro hav
      simp [isUserAvailable, hm, hfind, hav]
    · intro hlt
      cases hav : d.isAvailable with
      | false => simp [isUserAvailable, hm, hfind, hav]
      | true =>
        simp only [isUserAvailable, hm, Bool.false_eq_true, if_false, hfind, hav,
          Bool.not_true, if_false]
        cases h1 : jsLe d.startTime now.hhmm with
        | false => simp [h1]
        | true =>
          cases h2 : jsLe now.hhmm d.endTime with
          | false => simp [h1, h2]
          | true =>
            exfalso
            simp only [jsLe, Bool.not_eq_true'] at h1 h2
            have := charListLt_false_trans d.startTime.toList now.hhmm.toList
              d.endTime.toList h1 h2
            simp only [jsLt] at hlt
            rw [hlt] at this
            exact Bool.true_eq_false.mp this

/-- C3 witness: the midnight-crossing window 22:00–02:00 yields `false` even
at 23:00 on the right weekday. -/
theorem isUserAvailable_schedule_witness :
    isUserAvailable nightUser ⟨0, "monday", "23:00"⟩ = false :=
  ((isUserAvailable_schedule nightUser ⟨0, "monday", "23:00"⟩ (by decide)).2
    { day := "monday", isAvailable := true, startTime := "22:00", endTime := "02:00" }
    (by decide)).2.2 (by decide)

/-- C4: the DTMF branch of the unavailable flow: digit `1` goes to voicemail,
digit `2` transfers to the fixed central forwarding number, any other digit
or a gather timeout (no digit) defaults to voicemail. -/
theorem handleUnavailableDTMF_branches (event : DtmfEvent) (user : User) (fail : Bool) :
    (event.digit = some "1" →
      (handleUnavailableDTMF event user fail).action = "voicemail") ∧
    (event.digit = some "2" →
      handleUnavailableDTMF event user fail =
        { action := "forwarded_to_central",
          cmds := [TelnyxCmd.transfer CENTRAL_FORWARDING_NUMBER none] }) ∧
    (∀ d, event.digit = some d → d ≠ "1" → d ≠ "2" →
      (handleUnavailableDTMF event user fail).action = "voicemail") ∧
    (event.digit = none →
      (handleUnavailableDTMF event user fail).action = "voicemail") ∧
    CENTRAL_FORWARDING_NUMBER = "+18446942885" := by
  refine ⟨?_, ?_, ?_, ?_, rfl⟩
  · intro h
    simp [handleUnavailableDTMF, h, sendToVoicemail_action]
  · intro h
    simp [handleUnavailableDTMF, h]
  · intro d h h1 h2
    simp [handleUnavailableDTMF, h, beq_eq_false_iff_ne.mpr h1,
      beq_eq_false_iff_ne.mpr h2, sendToVoicemail_action]
  · intro h
    simp [handleUnavailableDTMF, h, sendToVoicemail_action]

/-- C4 witness: all four DTMF cases at concrete inputs. -/
theorem handleUnavailableDTMF_branches_witness :
    (handleUnavailableDTMF ⟨"cc", some "1"⟩ plainUser false).action = "voicemail" ∧
    (handleUnavailableDTMF ⟨"cc", some "2"⟩ plainUser false).action = "forwarded_to_central" ∧
    (handleUnavailableDTMF ⟨"cc", some "7"⟩ plainUser false).action = "voicemail" ∧
    (handleUnavailableDTMF ⟨"cc", none⟩ plainUser false).action = "voicemail" := by
  refine ⟨?_, ?_, ?_, ?_⟩
  · exact (handleUnavailableDTMF_branches ⟨"cc", some "1"⟩ plainUser false).1 rfl
  · rw [(handleUnavailableDTMF_branches ⟨"cc", some "2"⟩ plainUser false).2.1 rfl]
  · exact (handleUnavailableDTMF_branches ⟨"cc", some "7"⟩ plainUser false).2.2.1 "7" rfl
      (by decide) (by decide)
  · exact (handleUnavailableDTMF_branches ⟨"cc", none⟩ plainUser false).2.2.2.1 rfl

/-- C9: `sendToVoicemail` always results in action `voicemail`; the greeting
audio URL is the user's custom `voicemailGreetingUrl` when set, else the
percent-encoded `<FirstName> Voicemail.mp3` under the fixed greeting-asset
base path; on the success path it plays the audio then starts recording
(mp3, single channel, beep), and on audio failure it falls back to speaking
`user.voicemailGreeting` and still starts the same recording. -/
theorem sendToVoicemail_contract (cc : String) (user : User) (fail : Bool) :
    (sendToVoicemail cc user fail).action = "voicemail" ∧
    TelnyxCmd.recordStart "mp3" "single" true ∈ (sendToVoicemail cc user fail).cmds ∧
    greetingAudioUrl user =
      (if jsTruthyStr user.voicemailGreetingUrl then user.voicemailGreetingUrl.getD ""
       else VOICEMAIL_BASE_URL ++ encodeURIComponent (firstWord user.name ++ " Voicemail.mp3")) ∧
    (fail = false →
      (sendToVoicemail cc user fail).cmds =
        [TelnyxCmd.playAudio (greetingAudioUrl user) none,
         TelnyxCmd.recordStart "mp3" "single" true]) ∧
    (fail = true →
      (sendToVoicemail cc user fail).cmds =
        [TelnyxCmd.playAudio (greetingAudioUrl user) none,
         TelnyxCmd.speak user.voicemailGreeting "female" "en-US",
         TelnyxCmd.recordStart "mp3" "single" true]) := by
  cases fail <;> simp [sendToVoicemail, greetingAudioUrl]

/-- C9 witness: custom URL selection, derived default URL with percent
encoding, and the speech fallback command sequence. -/
theorem sendToVoicemail_contract_witness :
    greetingAudioUrl customGreetingUser = "https://example.com/custom-greeting.mp3" ∧
    greetingAudioUrl mondayUser =
      "https://raw.githubusercontent.com/GavvlLaw/voicemail-greetings/main/Bob%20Voicemail.mp3" ∧
    (sendToVoicemail "cc" mondayUser true).action = "voicemail" ∧
    (sendToVoicemail "cc" mondayUser true).cmds =
      [TelnyxCmd.playAudio
        "https://raw.githubusercontent.com/GavvlLaw/voicemail-greetings/main/Bob%20Voicemail.mp3"
        none,
       TelnyxCmd.speak "" "female" "en-US",
       TelnyxCmd.recordStart "mp3" "single" true] := by
  refine ⟨?_, ?_, (sendToVoicemail_contract "cc" mondayUser true).1, ?_⟩
  · rw [(sendToVoicemail_contract "cc" customGreetingUser true).2.2.1]
    decide
  · rw [(sendToVoicemail_contract "cc" mondayUser true).2.2.1]
    decide
  · rw [(sendToVoicemail_contract "cc" mondayUser true).2.2.2.2 rfl]
    decide

/-- The condition loop returns `true` exactly when some condition matches,
provided the message text is present. -/
theorem checkConditionsGo_iff (ctx : Context) (msg : String)
    (hmsg : ctx.messageText = some msg) :
    ∀ cs : List SmsCondition,
      checkConditionsGo ctx cs = true ↔ ∃ c ∈ cs, condMatches msg c = true := by
  intro cs
  induction cs with
  | nil => simp [checkConditionsGo]
  | cons c rest ih =>
    by_cases hin : c.type == "incomingSms"
    · simp only [checkConditionsGo, hin, if_true]
      constructor
      · intro _
        exact ⟨c, List.mem_cons_self c rest, by simp [condMatches, hin]⟩
      · intro _
        trivial
    · by_cases hkw : c.type == "keywordSms"
      · have hcm : condMatches msg c =
            (condKeywords c).any (fun k => jsIncludes (jsToLower msg) (jsToLower k)) := by
          simp [condMatches, hin, hkw]
        cases hp : c.parameters with
        | none =>
          have : condMatches msg c = false := by simp [hcm, condKeywords, hp]
          simp only [checkConditionsGo, hin, if_false, hkw, if_true, hp]
          simp [ih, this]
        | some ps =>
          cases hks : ps.keywords with
          | none =>
            have : condMatches msg c = false := by simp [hcm, condKeywords, hp, hks]
            simp only [checkConditionsGo, hin, if_false, hkw, if_true, hp, hks]
            simp [ih, this]
          | some ks =>
            have hck : condKeywords c = ks := by simp [condKeywords, hp, hks]
            by_cases hemp : ks.isEmpty
            · have : condMatches msg c = false := by
                rw [hcm, hck]
                rw [List.isEmpty_iff.mp hemp]
                rfl
              simp only [checkConditionsGo, hin, if_false, hkw, if_true, hp, hks, hemp,
                if_true]
              simp [ih, this]
            · cases hany : ks.any (fun k => jsIncludes (jsToLower msg) (jsToLower k)) with
              | true =>
                have : condMatches msg c = true := by rw [hcm, hck]; exact hany
                simp only [checkConditionsGo, hin, if_false, hkw, if_true, hp, hks, hemp,
                  if_false, hmsg, hany]
                simp [this]
              | false =>
                have : condMatches msg c = false := by rw [hcm, hck]; exact hany
                simp only [checkConditionsGo, hin, if_false, hkw, if_true, hp, hks, hemp,
                  if_false, hmsg, hany]
                simp [ih, this]
      · have : condMatches msg c = false := by simp [condMatches, hin, hkw]
        simp only [checkConditionsGo, hin, if_false, hkw, if_false]
        simp [ih, this]

/-- C5: the trigger predicate of `processIncomingSms` holds iff the
automation has at least one condition and some condition matches —
`incomingSms` always, or `keywordSms` with some keyword that is
case-insensitively a substring of the message text; an automation with an
empty condition list never triggers. -/
theorem checkTriggerConditions_iff (automation : SmsAutomation) (ctx : Context)
    (msg : String) (hmsg : ctx.messageText = some msg) :
    checkTriggerConditions automation ctx = true ↔
      automation.conditions ≠ [] ∧
        ∃ c ∈ automation.conditions, condMatches msg c = true := by
  cases hcs : automation.conditions with
  | nil => simp [checkTriggerConditions, hcs]
  | cons c rest =>
    simp only [checkTriggerConditions, hcs, List.isEmpty_cons, Bool.false_eq_true, if_false]
    rw [checkConditionsGo_iff ctx msg hmsg (c :: rest)]
    simp

/-- C5 witness: the keyword `stop` matches the message case-insensitively,
through the full trigger predicate. -/
theorem checkTriggerConditions_iff_witness :
    checkTriggerConditions stopAuto { messageText := some "Please STOP now" } = true :=
  (checkTriggerConditions_iff stopAuto { messageText := some "Please STOP now" }
    "Please STOP now" rfl).mpr (by decide)

/-- C6: the unsubscribe round trip: an inbound `STOP` at a number with one
active keyword automation returns `processed = true` with that automation as
the single triggered name, and issues exactly one send from the automation's
own number (`context.to`) to the original sender (`context.from`) with the
literal message. -/
theorem processIncomingSms_stop_roundtrip (name id : String) (env : RenderEnv) :
    processIncomingSms
      [{ name := name, isActive := true, phoneNumber := "+15551234567",
         conditions := [{ type := "keywordSms",
                          parameters := some { keywords := some ["stop"] } }],
         actions := [{ type := "sendSms",
                       parameters := some { message := some "You have been unsubscribed." } }],
         id := id }]
      { to_ := "+15551234567", from_ := "+15559876543", text := "STOP" } env =
    ({ processed := true, triggeredAutomations := [name], total := 1 },
     [{ from_ := "+15551234567", to_ := "+15559876543",
        text := "You have been unsubscribed." }],
     []) := rfl

/-- C6 witness: the round trip at a fully concrete automation. -/
theorem processIncomingSms_stop_roundtrip_witness :
    processIncomingSms [stopAuto]
      { to_ := "+15551234567", from_ := "+15559876543", text := "STOP" } {} =
    ({ processed := true, triggeredAutomations := ["Unsub"], total := 1 },
     [{ from_ := "+15551234567", to_ := "+15559876543",
        text := "You have been unsubscribed." }],
     []) :=
  processIncomingSms_stop_roundtrip "Unsub" "a1" {}

/-- C7 counterexample: the claim says a placeholder is replaced only when it
occurs literally and that content containing no table placeholder is left
unaltered; but `processTemplate` builds its regexes without escaping, so the
`.` in `\x7b\x7buser.name\x7d\x7d` matches any character and the near-miss
`\x7b\x7buser_name\x7d\x7d` — which occurs nowhere in the variable table —
is replaced by the user's name. -/
theorem processTemplate_literal_claim_false :
    processTemplate { content := "\x7b\x7buser_name\x7d\x7d" }
        { user := some aliceUser } {} = "Alice Smith" ∧
    "Alice Smith" ≠ "\x7b\x7buser_name\x7d\x7d" := by
  constructor
  · decide
  · decide

/-- C7 (amended): rendering substitutes the fixed variable table by global
regex replacement in which `.` inside a placeholder key matches any single
character: placeholders occurring literally are replaced; near-miss strings
differing only at a `.` position are also replaced; a placeholder matching
no table pattern, such as `\x7b\x7bnot.a.variable\x7d\x7d`, is left
verbatim; rendering is a total function (never fails). -/
theorem processTemplate_amended :
    processTemplate { content := "Hi \x7b\x7buser.firstName\x7d\x7d, re: \x7b\x7bmessage\x7d\x7d" }
        { user := some aliceUser, messageText := some "help" } {} = "Hi Alice, re: help" ∧
    processTemplate { content := "\x7b\x7bnot.a.variable\x7d\x7d" }
        { user := some aliceUser } {} = "\x7b\x7bnot.a.variable\x7d\x7d" ∧
    processTemplate { content := "\x7b\x7buser_name\x7d\x7d" }
        { user := some aliceUser } {} = "Alice Smith" := by
  refine ⟨by decide, by decide, by decide⟩

/-- The conversion the scheduler applies agrees with its specification-side
restatement in explicit milliseconds. -/
theorem delayMsSpec_eq_delayMsOf (a : SmsAction) (d : DelaySpec)
    (hd : a.parameters.bind (fun ps => ps.delay) = some d) :
    delayMsSpec a = delayMsOf d := by
  unfold delayMsSpec delayMsOf
  rw [hd]
  dsimp only
  cases hu : d.unit == "hours" with
  | true => simp only [hu, if_true]; ring
  | false =>
    cases hu2 : d.unit == "days" with
    | true => simp only [hu, hu2, Bool.false_eq_true, if_false, if_true]; ring
    | false => simp only [hu, hu2, Bool.false_eq_true, if_false]; ring

/-- Full characterization of the action loop: results align one-to-one with
the actions (`scheduled` for positive-delay actions, the immediate result
otherwise), the sends are exactly those of the non-delayed actions, and the
deferred registrations are exactly the positive-delay actions with their
delays converted to milliseconds. -/
theorem executeActionsGo_characterization (env : RenderEnv) (ctx : Context)
    (autoId : String) :
    ∀ actions : List SmsAction,
      executeActionsGo env ctx autoId actions =
        (actions.map (fun a =>
           if hasPosDelay a then
             { type := a.type, status := "scheduled", delay := delayLabel a }
           else (executeAction a ctx env).1),
         (actions.filter (fun a => !hasPosDelay a)).flatMap
           (fun a => (executeAction a ctx env).2),
         (actions.filter hasPosDelay).map (fun a =>
           { automationId := autoId, delayMs := delayMsSpec a,
             action := a, ctx := ctx })) := by
  intro actions
  induction actions with
  | nil => rfl
  | cons a rest ih =>
    unfold executeActionsGo
    rw [ih]
    cases hd : a.parameters.bind (fun ps => ps.delay) with
    | none =>
      have hpos : hasPosDelay a = false := by simp [hasPosDelay, hd]
      simp [hpos, delayLabel, hd]
    | some d =>
      cases hdv : decide (0 < d.value) with
      | true =>
        have hdv' : 0 < d.value := of_decide_eq_true hdv
        have hpos : hasPosDelay a = true := by simp [hasPosDelay, hd, hdv']
        have hms := delayMsSpec_eq_delayMsOf a d hd
        have hlab : delayLabel a = some (toString d.value ++ " " ++ d.unit) := by
          unfold delayLabel
          rw [hd]
          rfl
        simp [hdv', hpos, hd, hms, hlab]
      | false =>
        have hdv' : ¬ 0 < d.value := of_decide_eq_false hdv
        have hpos : hasPosDelay a = false := by simp [hasPosDelay, hd, hdv']
        simp [hdv', hpos, delayLabel, hd]

/-- C8: a positive-delay action is never executed inline: its result records
status `scheduled` (with the `value unit` delay label), every send comes from
a non-delayed action, the deferred registration carries the delay converted
to milliseconds (minutes by default, hours/days per the unit), and the timer
callback re-fetches the automation and does nothing when it is missing or no
longer active at fire time. -/
theorem delayed_actions_deferred (automation : SmsAutomation) (ctx : Context)
    (env : RenderEnv) :
    (executeAutomationActions automation ctx env).1 =
      automation.actions.map (fun a =>
        if hasPosDelay a then
          { type := a.type, status := "scheduled", delay := delayLabel a }
        else (executeAction a ctx env).1) ∧
    (executeAutomationActions automation ctx env).2.1 =
      (automation.actions.filter (fun a => !hasPosDelay a)).flatMap
        (fun a => (executeAction a ctx env).2) ∧
    (executeAutomationActions automation ctx env).2.2 =
      (automation.actions.filter hasPosDelay).map (fun a =>
        { automationId := automation.id, delayMs := delayMsSpec a,
          action := a, ctx := ctx }) ∧
    (∀ s : Scheduled, ∀ db : List SmsAutomation, ∀ env2 : RenderEnv,
      db.find? (fun a => a.id == s.automationId) = none →
      runDelayedAction db s env2 = []) ∧
    (∀ s : Scheduled, ∀ db : List SmsAutomation, ∀ env2 : RenderEnv, ∀ a : SmsAutomation,
      db.find? (fun b => b.id == s.automationId) = some a → a.isActive = false →
      runDelayedAction db s env2 = []) := by
  have hgo := executeActionsGo_characterization env ctx automation.id automation.actions
  refine ⟨?_, ?_, ?_, ?_, ?_⟩
  · rw [executeAutomationActions, hgo]
  · rw [executeAutomationActions, hgo]
  · rw [executeAutomationActions, hgo]
  · intro s db env2 hfind
    simp [runDelayedAction, hfind]
  · intro s db env2 a hfind hact
    simp [runDelayedAction, hfind, hact]

/-- C8 witness: in a mixed automation the five-minute action is only
scheduled (300000 ms) while the immediate one sends; deactivating the
automation before the timer fires suppresses the deferred action. -/
theorem delayed_actions_deferred_witness :
    (executeAutomationActions mixedAuto
        { from_ := some "+15559876543", to_ := some "+15551234567" } {}).1.map
      (fun r => r.status) = ["scheduled", "success"] ∧
    (executeAutomationActions mixedAuto
        { from_ := some "+15559876543", to_ := some "+15551234567" } {}).2.1 =
      [{ from_ := "+15551234567", to_ := "+15559876543", text := "now" }] ∧
    (executeAutomationActions mixedAuto
        { from_ := some "+15559876543", to_ := some "+15551234567" } {}).2.2.map
      (fun s => s.delayMs) = [300000] ∧
    runDelayedAction [{ mixedAuto with isActive := false }]
      { automationId := "m1", delayMs := 300000,
        action := { type := "sendSms",
                    parameters := some { message := some "hi",
                                         delay := some { value := 5, unit := "minutes" } } },
        ctx := { from_ := some "+15559876543", to_ := some "+15551234567" } } {} = [] := by
  have h := delayed_actions_deferred mixedAuto
    { from_ := some "+15559876543", to_ := some "+15551234567" } {}
  refine ⟨?_, ?_, ?_, ?_⟩
  · rw [h.1]
    decide
  · rw [h.2.1]
    decide
  · rw [h.2.2.1]
    decide
  · exact h.2.2.2.2
      { automationId := "m1", delayMs := 300000,
        action := { type := "sendSms",
                    parameters := some { message := some "hi",
                                         delay := some { value := 5, unit := "minutes" } } },
        ctx := { from_ := some "+15559876543", to_ := some "+15551234567" } }
      [{ mixedAuto with isActive := false }] {} { mixedAuto with isActive := false }
      (by decide) rfl

/-- With no `from` in the context, `executeSendSmsAction` always throws. -/
theorem executeSendSmsAction_error_of_from_none (action : SmsAction) (ctx : Context)
    (env : RenderEnv) (hf : ctx.from_ = none) :
    ∃ e, executeSendSmsAction action ctx env = Except.error e := by
  unfold executeSendSmsAction
  cases hps : action.parameters with
  | none => exact ⟨_, rfl⟩
  | some ps =>
    cases htm : ps.template with
    | some tmpl =>
      refine ⟨"Missing required to/from phone numbers", ?_⟩
      simp only [htm, hf]
      simp [jsTruthyStr]
    | none =>
      cases hmv : jsTruthyStr ps.message with
      | true =>
        refine ⟨"Missing required to/from phone numbers", ?_⟩
        simp only [htm, hmv, if_true, hf]
        simp [jsTruthyStr]
      | false =>
        refine ⟨"No template or message provided for SMS action", ?_⟩
        simp only [htm, hmv, Bool.false_eq_true, if_false]

/-- With no `from` in the context, no action ever issues a send. -/
theorem executeAction_sends_nil_of_from_none (action : SmsAction) (ctx : Context)
    (env : RenderEnv) (hf : ctx.from_ = none) :
    (executeAction action ctx env).2 = [] := by
  unfold executeAction
  by_cases ht : action.type == "sendSms"
  · obtain ⟨e, he⟩ := executeSendSmsAction_error_of_from_none action ctx env hf
    simp [ht, he]
  · by_cases hn : action.type == "notify" <;> simp [ht, hn]

/-- With no `from` in the context, the action loop issues no send. -/
theorem executeActionsGo_sends_nil (env : RenderEnv) (ctx : Context) (autoId : String)
    (hf : ctx.from_ = none) :
    ∀ actions : List SmsAction, (executeActionsGo env ctx autoId actions).2.1 = [] := by
  intro actions
  induction actions with
  | nil => rfl
  | cons a rest ih =>
    unfold executeActionsGo
    cases hd : a.parameters.bind (fun ps => ps.delay) with
    | none => simp [executeAction_sends_nil_of_from_none a ctx env hf, ih]
    | some d =>
      by_cases hdv : 0 < d.value
      · simp [hdv, ih]
      · simp [hdv, executeAction_sends_nil_of_from_none a ctx env hf, ih]

/-- Entry points whose per-automation context has no `from` issue no send. -/
theorem runAutomations_sends_nil (env : RenderEnv) (ctxOf : SmsAutomation → Context)
    (hf : ∀ a, (ctxOf a).from_ = none) :
    ∀ autos : List SmsAutomation, (runAutomations env ctxOf autos).2.1 = [] := by
  intro autos
  induction autos with
  | nil => rfl
  | cons a rest ih =>
    unfold runAutomations executeAutomationActions
    simp [executeActionsGo_sends_nil env (ctxOf a) a.id (hf a), ih]

/-- `processScheduledAutomations` never issues a send (its context has no
`from`). -/
theorem processScheduledAutomations_sends_nil (db : List SmsAutomation)
    (timeNow dow : String) (env : RenderEnv) :
    (processScheduledAutomations db timeNow dow env).2.1 = [] := by
  unfold processScheduledAutomations
  dsimp only
  split
  · rfl
  · exact runAutomations_sends_nil env (scheduledContext timeNow dow) (fun a => rfl) _

/-- Both branches of a result-shaped `ite` issuing no send, the `ite`
issues none. -/
theorem sends_nil_ite (c : Prop) [Decidable c]
    (A B : ProcessResult × List Send × List Scheduled)
    (hA : A.2.1 = []) (hB : B.2.1 = []) : (if c then A else B).2.1 = [] := by
  split <;> assumption

/-- `processAvailabilityChange` never issues a send (its context has no
`from`). -/
theorem processAvailabilityChange_sends_nil (db : List SmsAutomation) (userId : String)
    (userLookup : Option User) (isAvail : Bool) (env : RenderEnv) :
    (processAvailabilityChange db userId userLookup isAvail env).2.1 = [] := by
  unfold processAvailabilityChange
  cases userLookup with
  | none => rfl
  | some user =>
    dsimp only
    apply sends_nil_ite
    · rfl
    · apply sends_nil_ite
      · rfl
      · exact runAutomations_sends_nil env _ (fun a => rfl) _

/-- C10: the contexts built by `processScheduledAutomations` and
`processAvailabilityChange` carry no `from` field, so an immediate `sendSms`
action always fails with `Missing required to/from phone numbers` (status
`error`) before reaching the messaging capability, and those entry points
never issue an SMS. -/
theorem scheduled_and_availability_sends_always_fail (db : List SmsAutomation)
    (timeNow dow : String) (env : RenderEnv) (userId : String)
    (userLookup : Option User) (isAvail : Bool) :
    (processScheduledAutomations db timeNow dow env).2.1 = [] ∧
    (processAvailabilityChange db userId userLookup isAvail env).2.1 = [] ∧
    (∀ a, (scheduledContext timeNow dow a).from_ = none) ∧
    (∀ status user a, (availabilityContext status userId user a).from_ = none) ∧
    (∀ (action : SmsAction) (ps : ActionParams) (ctx : Context) (env2 : RenderEnv),
      ctx.from_ = none → action.type = "sendSms" → action.parameters = some ps →
      (ps.template.isSome = true ∨ jsTruthyStr ps.message = true) →
      executeAction action ctx env2 =
        ({ type := "sendSms", status := "error",
           error := some "Missing required to/from phone numbers" }, [])) := by
  refine ⟨processScheduledAutomations_sends_nil db timeNow dow env,
    processAvailabilityChange_sends_nil db userId userLookup isAvail env,
    fun a => rfl, fun status user a => rfl, ?_⟩
  intro action ps ctx env2 hf ht hps hmsg
  have herr : executeSendSmsAction action ctx env2 =
      Except.error "Missing required to/from phone numbers" := by
    unfold executeSendSmsAction
    rw [hps]
    cases hmsg with
    | inl h =>
      obtain ⟨tmpl, htm⟩ := Option.isSome_iff_exists.mp h
      simp only [htm, hf]
      simp [jsTruthyStr]
    | inr h =>
      cases htm : ps.template with
      | some tmpl =>
        simp only [htm, hf]
        simp [jsTruthyStr]
      | none =>
        simp only [htm, h, if_true, hf]
        simp [jsTruthyStr]
  simp [executeAction, ht, herr]

/-- C10 witness: a triggering scheduled automation issues no send, and its
immediate `sendSms` action ends in the documented error. -/
theorem scheduled_and_availability_sends_always_fail_witness :
    (processScheduledAutomations [schedAuto] "09:00" "monday" {}).2.1 = [] ∧
    executeAction { type := "sendSms", parameters := some { message := some "We are open." } }
        (scheduledContext "09:00" "monday" schedAuto) {} =
      ({ type := "sendSms", status := "error",
         error := some "Missing required to/from phone numbers" }, []) := by
  have h := scheduled_and_availability_sends_always_fail [schedAuto] "09:00" "monday" {}
    "u1" none false
  exact ⟨h.1, h.2.2.2.2 { type := "sendSms", parameters := some { message := some "We are open." } }
    { message := some "We are open." } (scheduledContext "09:00" "monday" schedAuto) {}
    rfl rfl rfl (Or.inr (by decide))⟩

end Telnyx
